import Mathlib

/-!
Shallow embedding of the job-postings module (src/src/app/api/endpoints/jobs.py).

The persistence layer is modelled as an in-memory store: a list of companies,
a list of job postings in persistence order, and a counter for the next
server-assigned id.  The external generative API is modelled by passing the
streamed outcome (either a raised network error or the ordered list of chunk
fragments) as an explicit input to the generation operation.  `json.loads`
is modelled by an executable JSON parser over a `Json` value type.

The `models.py`/`schemas.py` files are not part of the reviewed sources, so
the entity and request/response shapes are modelled from the spec: `Company`
has `id`, `name`, `industry`; `JobPosting` has `id`, `title`, `description`
(initially null) and `company_id`; `JobPostingUpdate` has all fields
optional with explicit field-presence ("exclude unset") semantics, so each
update field is `Option (Option _)`: `none` = field absent from the body,
`some none` = field explicitly null, `some (some v)` = field set to `v`.
The store itself enforces no constraints of its own (the spec's §9 open
question records that storage-level referential integrity is not relied on);
all checks are the component's explicit ones.
-/

namespace JobsApi

/-- Modelled from the spec: `Company` entity with `id`, `name`, `industry`. -/
structure Company where
  id : Nat
  name : String
  industry : String
deriving DecidableEq, Repr

/-- Modelled from the spec: `JobPosting` entity.  `title`, `description` and
`company_id` are stored as the dynamic column values the endpoint writes
(the endpoint can write null into any of them, see `update_job_posting`). -/
structure JobPosting where
  id : Nat
  title : Option String
  description : Option String
  company_id : Option Nat
deriving DecidableEq, Repr

/-- The persistence layer: companies, job postings in persistence-layer
(insertion) order, and the next server-assigned job id. -/
structure Store where
  companies : List Company
  jobs : List JobPosting
  nextId : Nat
deriving DecidableEq, Repr

/-- An `HTTPException(status_code, detail)`. -/
structure HTTPError where
  status : Nat
  detail : String
deriving DecidableEq, Repr

/-- Modelled from the spec: `JobPostingCreate`, all required fields for a new
posting (`description` starts empty/null, so it is not part of the create
body). -/
structure JobPostingCreate where
  title : String
  company_id : Nat
deriving DecidableEq, Repr

/-- Modelled from the spec: `JobPostingUpdate`, all fields optional, with
pydantic field-presence tracking: outer `none` = unset (absent from the
body), `some none` = explicitly null, `some (some v)` = set to `v`. -/
structure JobPostingUpdate where
  title : Option (Option String) := none
  description : Option (Option String) := none
  company_id : Option (Option Nat) := none
deriving DecidableEq, Repr

/-- Modelled from the spec: `JobDescriptionRequest`, a list of required
tool/skill names. -/
structure JobDescriptionRequest where
  required_tools : List String
deriving DecidableEq, Repr

/-- Modelled from the spec: `JobDescriptionResponse` carries the job id and
the generated description text.  The `generated_at` wall-clock timestamp is
outside the shallow embedding and is omitted. -/
structure JobDescriptionResponse where
  job_id : Nat
  description : String
deriving DecidableEq, Repr

/-- `db.query(JobPostingModel).filter(JobPostingModel.id == job_id).first()` -/
def findJob (st : Store) (i : Nat) : Option JobPosting :=
  st.jobs.find? (fun j => j.id == i)

/-- `db.query(Company).filter(Company.id == cid).first()` -/
def findCompany (st : Store) (cid : Nat) : Option Company :=
  st.companies.find? (fun c => c.id == cid)

/-- Replace the first element satisfying `p` (the row the fetched ORM object
denotes) by `a`. -/
def replaceFirst (p : α → Bool) (a : α) : List α → List α
  | [] => []
  | x :: xs => if p x then a :: xs else x :: replaceFirst p a xs

/-- Remove the first element satisfying `p` (the row `db.delete` targets). -/
def removeFirst (p : α → Bool) : List α → List α
  | [] => []
  | x :: xs => if p x then xs else x :: removeFirst p xs

/-- POST `/`: verify the company exists, then persist the new posting with a
server-assigned id and return it. -/
def create_job_posting (st : Store) (job : JobPostingCreate) :
    Except HTTPError JobPosting × Store :=
  match findCompany st job.company_id with
  | none => (.error ⟨404, "Company not found"⟩, st)
  | some _ =>
    let db_job : JobPosting :=
      { id := st.nextId, title := some job.title, description := none,
        company_id := some job.company_id }
    (.ok db_job,
      { st with jobs := st.jobs ++ [db_job], nextId := st.nextId + 1 })

/-- GET `/`: `db.query(JobPostingModel).offset(skip).limit(limit).all()`.
The query parameters are ints defaulting to 0 and 100; only non-negative
values are within the spec's scope, so they are modelled as `Nat`. -/
def read_job_postings (st : Store) (skip : Nat) (limit : Nat) :
    List JobPosting :=
  (st.jobs.drop skip).take limit

/-- GET `/\x7bjob_id\x7d`: return the posting or a 404. -/
def read_job_posting (st : Store) (job_id : Nat) :
    Except HTTPError JobPosting × Store :=
  match findJob st job_id with
  | none => (.error ⟨404, "Job posting not found"⟩, st)
  | some db_job => (.ok db_job, st)

/-- Pydantic attribute access `job.company_id` on the update body: yields the
default `None` both when the field is unset and when it is explicitly null. -/
def companyIdAttr (upd : JobPostingUpdate) : Option Nat :=
  match upd.company_id with
  | some v => v
  | none => none

/-- `job.model_dump(exclude_unset=True)` followed by
`setattr(db_job, field, value)` for each present field: exactly the fields
present in the body are applied, all others keep their prior value. -/
def applyUpdate (db_job : JobPosting) (upd : JobPostingUpdate) : JobPosting :=
  { db_job with
    title := match upd.title with
      | some v => v
      | none => db_job.title
    description := match upd.description with
      | some v => v
      | none => db_job.description
    company_id := match upd.company_id with
      | some v => v
      | none => db_job.company_id }

/-- The apply-and-commit tail of the update endpoint: write the updated
fields onto the fetched row and commit. -/
def commitUpdate (st : Store) (db_job : JobPosting) (upd : JobPostingUpdate) :
    Except HTTPError JobPosting × Store :=
  let updated := applyUpdate db_job upd
  (.ok updated,
    { st with jobs := replaceFirst (fun j => j.id == db_job.id) updated st.jobs })

/-- PUT `/\x7bjob_id\x7d`: fetch the posting (404 if absent); if the body's
`company_id` attribute is non-None, the new company must exist (404
otherwise); then apply exactly the explicitly-set fields and commit.  An
explicitly-null `company_id` skips the existence check (its attribute value
is `None`) yet is still applied by the exclude-unset loop. -/
def update_job_posting (st : Store) (job_id : Nat) (upd : JobPostingUpdate) :
    Except HTTPError JobPosting × Store :=
  match findJob st job_id with
  | none => (.error ⟨404, "Job posting not found"⟩, st)
  | some db_job =>
    match companyIdAttr upd with
    | some cid =>
      match findCompany st cid with
      | none => (.error ⟨404, "Company not found"⟩, st)
      | some _ => commitUpdate st db_job upd
    | none => commitUpdate st db_job upd

/-- DELETE `/\x7bjob_id\x7d`: remove the row and return a confirmation
message, or 404 if absent. -/
def delete_job_posting (st : Store) (job_id : Nat) :
    Except HTTPError String × Store :=
  match findJob st job_id with
  | none => (.error ⟨404, "Job posting not found"⟩, st)
  | some db_job =>
    (.ok "Job posting deleted successfully",
      { st with jobs := removeFirst (fun j => j.id == db_job.id) st.jobs })

/-! ### JSON model (the `json` stdlib collaborator)

`json.loads` on the accumulated buffer is modelled by an executable
recursive-descent parser.  Numbers are lexed against the JSON number grammar
and kept as their raw text (no numeric value ever feeds into the component's
behaviour).  Decode-error messages are modelled without the position suffix
Python appends. -/

/-- A parsed JSON value.  Objects keep their fields in textual order;
duplicate keys are resolved on lookup, last occurrence winning, as in a
Python dict built by `json.loads`. -/
inductive Json where
  | null : Json
  | bool (b : Bool) : Json
  | num (raw : String) : Json
  | str (s : String) : Json
  | arr (elems : List Json) : Json
  | obj (fields : List (String × Json)) : Json

/-- The double-quote character. -/
def quoteChar : Char := Char.ofNat 34

/-- The backslash character. -/
def backslashChar : Char := Char.ofNat 92

/-- The opening-brace character. -/
def lbraceChar : Char := Char.ofNat 123

/-- The closing-brace character. -/
def rbraceChar : Char := Char.ofNat 125

/-- Drop leading JSON whitespace (space, tab, newline, carriage return). -/
def skipWs : List Char → List Char
  | [] => []
  | c :: cs =>
    if c = ' ' || c = Char.ofNat 9 || c = Char.ofNat 10 || c = Char.ofNat 13 then
      skipWs cs
    else c :: cs

/-- Whether `t` is a leading segment of `s`. -/
def leadsChars : List Char → List Char → Bool
  | [], _ => true
  | _ :: _, [] => false
  | c :: cs, d :: ds => c == d && leadsChars cs ds

/-- Decode one string-escape character (the character after a backslash). -/
def unescape (c : Char) : Option Char :=
  if c = quoteChar then some quoteChar
  else if c = backslashChar then some backslashChar
  else if c = '/' then some '/'
  else if c = 'b' then some (Char.ofNat 8)
  else if c = 'f' then some (Char.ofNat 12)
  else if c = 'n' then some (Char.ofNat 10)
  else if c = 'r' then some (Char.ofNat 13)
  else if c = 't' then some (Char.ofNat 9)
  else none

/-- The value of a hexadecimal digit. -/
def hexDigitVal (c : Char) : Option Nat :=
  if '0' ≤ c ∧ c ≤ '9' then some (c.toNat - '0'.toNat)
  else if 'a' ≤ c ∧ c ≤ 'f' then some (c.toNat - 'a'.toNat + 10)
  else if 'A' ≤ c ∧ c ≤ 'F' then some (c.toNat - 'A'.toNat + 10)
  else none

/-- Parse the body of a JSON string after the opening quote, accumulating
decoded characters in reverse; returns the string and the remaining input. -/
def parseStringBody (fuel : Nat) (acc : List Char) (cs : List Char) :
    Option (String × List Char) :=
  match fuel with
  | 0 => none
  | fuel + 1 =>
    match cs with
    | [] => none
    | c :: rest =>
      if c = quoteChar then some (String.mk acc.reverse, rest)
      else if c = backslashChar then
        match rest with
        | [] => none
        | e :: rest2 =>
          if e = 'u' then
            match rest2 with
            | h1 :: h2 :: h3 :: h4 :: rest3 =>
              match hexDigitVal h1, hexDigitVal h2, hexDigitVal h3, hexDigitVal h4 with
              | some v1, some v2, some v3, some v4 =>
                parseStringBody fuel
                  (Char.ofNat (((v1 * 16 + v2) * 16 + v3) * 16 + v4) :: acc) rest3
              | _, _, _, _ => none
            | _ => none
          else
            match unescape e with
            | some d => parseStringBody fuel (d :: acc) rest2
            | none => none
      else parseStringBody fuel (c :: acc) rest

/-- Split off a maximal run of decimal digits. -/
def takeDigits : List Char → List Char × List Char
  | [] => ([], [])
  | c :: cs =>
    if c.isDigit then
      let (ds, rest) := takeDigits cs
      (c :: ds, rest)
    else ([], c :: cs)

/-- Lex a JSON number (sign, integer part without leading zeros, optional
fraction, optional exponent), returning its raw text and the rest. -/
def lexNumber (cs : List Char) : Option (String × List Char) :=
  let (sign, cs1) :=
    match cs with
    | '-' :: rest => (['-'], rest)
    | _ => (([] : List Char), cs)
  match cs1 with
  | [] => none
  | d :: _ =>
    if d.isDigit then
      let (intPart, cs2) := takeDigits cs1
      -- JSON forbids leading zeros: "0" alone is fine, "0x..." is not
      if intPart.length > 1 && intPart.headD '0' = '0' then none
      else
        let (fracPart, cs3) :=
          match cs2 with
          | '.' :: rest =>
            let (ds, rest2) := takeDigits rest
            if ds.isEmpty then ([], '.' :: rest) else ('.' :: ds, rest2)
          | _ => (([] : List Char), cs2)
        if (match cs3 with | '.' :: _ => true | _ => false) then none
        else
          let expanded :=
            match cs3 with
            | e :: rest =>
              if e = 'e' || e = 'E' then
                let (sgn, rest2) :=
                  match rest with
                  | s :: r => if s = '+' || s = '-' then ([s], r) else ([], rest)
                  | [] => (([] : List Char), rest)
                let (ds, rest3) := takeDigits rest2
                if ds.isEmpty then none else some (e :: (sgn ++ ds), rest3)
              else some ([], cs3)
            | [] => some ([], cs3)
          match expanded with
          | none => none
          | some (expPart, cs4) =>
            some (String.mk (sign ++ intPart ++ fracPart ++ expPart), cs4)
    else none

mutual

/-- Parse one JSON value from the input (after skipping whitespace),
returning it and the remaining input. -/
def parseValue (fuel : Nat) (cs : List Char) : Option (Json × List Char) :=
  match fuel with
  | 0 => none
  | fuel + 1 =>
    match skipWs cs with
    | [] => none
    | c :: rest =>
      if c = quoteChar then
        match parseStringBody (rest.length + 1) [] rest with
        | some (s, rest2) => some (.str s, rest2)
        | none => none
      else if c = lbraceChar then
        parseFields fuel true [] rest
      else if c = '[' then
        parseElems fuel true [] rest
      else if leadsChars ['n', 'u', 'l', 'l'] (c :: rest) then
        some (.null, (c :: rest).drop 4)
      else if leadsChars ['t', 'r', 'u', 'e'] (c :: rest) then
        some (.bool true, (c :: rest).drop 4)
      else if leadsChars ['f', 'a', 'l', 's', 'e'] (c :: rest) then
        some (.bool false, (c :: rest).drop 5)
      else
        match lexNumber (c :: rest) with
        | some (raw, rest2) => some (.num raw, rest2)
        | none => none

/-- Parse the elements of a JSON array after `[`, accumulating in reverse.
`first` marks that no element has been consumed yet. -/
def parseElems (fuel : Nat) (first : Bool) (acc : List Json) (cs : List Char) :
    Option (Json × List Char) :=
  match fuel with
  | 0 => none
  | fuel + 1 =>
    match skipWs cs with
    | [] => none
    | c :: rest =>
      if c = ']' && first then some (.arr [], rest)
      else
        match parseValue fuel (c :: rest) with
        | none => none
        | some (v, rest2) =>
          match skipWs rest2 with
          | ']' :: rest3 => some (.arr (v :: acc).reverse, rest3)
          | ',' :: rest3 => parseElems fuel false (v :: acc) rest3
          | _ => none

/-- Parse the fields of a JSON object after the opening brace, accumulating
in reverse.  `first` marks that no field has been consumed yet. -/
def parseFields (fuel : Nat) (first : Bool) (acc : List (String × Json))
    (cs : List Char) : Option (Json × List Char) :=
  match fuel with
  | 0 => none
  | fuel + 1 =>
    match skipWs cs with
    | [] => none
    | c :: rest =>
      if c = rbraceChar && first then some (.obj [], rest)
      else if c = quoteChar then
        match parseStringBody (rest.length + 1) [] rest with
        | none => none
        | some (k, rest2) =>
          match skipWs rest2 with
          | ':' :: rest3 =>
            match parseValue fuel rest3 with
            | none => none
            | some (v, rest4) =>
              match skipWs rest4 with
              | d :: rest5 =>
                if d = rbraceChar then some (.obj ((k, v) :: acc).reverse, rest5)
                else if d = ',' then parseFields fuel false ((k, v) :: acc) rest5
                else none
              | [] => none
          | _ => none
      else none

end

/-- `json.loads`: parse the whole buffer as one JSON document; anything left
over beyond trailing whitespace is an error.  The error text models the
`JSONDecodeError` message (without Python's position suffix). -/
def parseJson (s : String) : Except String Json :=
  match parseValue (4 * (s.length + 1)) s.data with
  | none => .error "Expecting value"
  | some (j, rest) =>
    if (skipWs rest).isEmpty then .ok j else .error "Extra data"

/-- Python dict lookup on an object built by `json.loads`: for duplicate
keys the last occurrence wins. -/
def lookupLast (k : String) : List (String × Json) → Option Json
  | [] => none
  | (k2, v) :: rest =>
    match lookupLast k rest with
    | some r => some r
    | none => if k2 = k then some v else none

/-! ### Description generation (POST `/\x7bid\x7d/description`)

The OpenAI streaming call is the single external input of the operation: it
is modelled as either a raised error (network failure at the call or while
iterating the stream) or the ordered sequence of chunks, each chunk carrying
`chunk.choices[0].delta.function_call.arguments` when present. -/

/-- The outcome of `openai_client.chat.completions.create(..., stream=True)`
together with iterating the returned stream: either an exception with its
message, or the ordered chunk fragments (`none` = a chunk without
function-call arguments, skipped by the loop). -/
inductive StreamOutcome where
  | failure (msg : String) : StreamOutcome
  | fragments (chunks : List (Option String)) : StreamOutcome

/-- The stream-consuming loop: fragments are appended to the buffer in
arrival order; chunks without arguments contribute nothing. -/
def accumulateFragments (chunks : List (Option String)) : String :=
  List.foldl
    (fun acc c =>
      match c with
      | some s => acc ++ s
      | none => acc)
    "" chunks

/-- Python `f`-string rendering of a nullable column value (`None` prints as
`"None"`). -/
def pyStr : Option String → String
  | some s => s
  | none => "None"

/-- The prompt literal built by the endpoint.  The source juxtaposes the
`industry` f-string and the `The role ...` f-string with no separator, so
the prompt reads `... industryThe role ...`; the embedding keeps that. -/
def buildPrompt (title name industry tools : String) : String :=
  "Generate a professional job description for the position '" ++ title ++
    "' at " ++ name ++ ", " ++
    "a company in the " ++ industry ++ " industry" ++
    "The role requires expertise in the following tools: " ++ tools ++ ". " ++
    "Structure the response as a single paragraph."

/-- The detail text of the 500 raised by the component's catch-all. -/
def failDetail (msg : String) : String :=
  "Failed to generate job description: " ++ msg

/-- Modelled from the spec: the message of the `AttributeError` raised when
`.get` is called on a non-dict parse result (step 6's extraction failing). -/
def getAttrErr : String := "object has no attribute get"

/-- Modelled from the spec: the message raised when the extracted
"description" value is not a string: the response model requires the
generated description text to be a string. -/
def nonStringDescErr : String := "description is not a string"

/-- The full observable outcome of a generation request: the HTTP response,
the store after the request, whether the external API was invoked, and the
prompt sent to it (`none` when no call was made). -/
structure GenResult where
  response : Except HTTPError JobDescriptionResponse
  store : Store
  apiCalled : Bool
  prompt : Option String
deriving Repr

/-- The `job.company` relationship access: resolves the posting's
`company_id` against the companies table (null or dangling gives `None`). -/
def resolveCompany (st : Store) (job : JobPosting) : Option Company :=
  match job.company_id with
  | none => none
  | some cid => findCompany st cid

/-- Steps 6–8 on the fully-accumulated buffer: parse it as JSON, extract the
"description" value with `.get("description", "")`, persist it onto the
posting and commit, and build the response.  Whether a non-string extracted
value reaches storage is driver-dependent and outside the spec's claims; it
is modelled as not persisted. -/
def finishFromBuffer (st : Store) (job : JobPosting) (p : String)
    (buf : String) : GenResult :=
  match parseJson buf with
  | .error msg => ⟨.error ⟨500, failDetail msg⟩, st, true, some p⟩
  | .ok (.obj kvs) =>
    match lookupLast "description" kvs with
    | some (.str s) =>
      let updated : JobPosting := { job with description := some s }
      ⟨.ok ⟨job.id, s⟩,
        { st with
            jobs := replaceFirst (fun j => j.id == job.id) updated st.jobs },
        true, some p⟩
    | some _ => ⟨.error ⟨500, failDetail nonStringDescErr⟩, st, true, some p⟩
    | none =>
      let updated : JobPosting := { job with description := some "" }
      ⟨.ok ⟨job.id, ""⟩,
        { st with
            jobs := replaceFirst (fun j => j.id == job.id) updated st.jobs },
        true, some p⟩
  | .ok _ => ⟨.error ⟨500, failDetail getAttrErr⟩, st, true, some p⟩

/-- Steps 4–8 inside the `try`: invoke the external call and consume the
stream; an exception anywhere in the block surfaces as a 500 carrying the
underlying message, and nothing is persisted before the commit step. -/
def consumeStream (st : Store) (job : JobPosting) (p : String) :
    StreamOutcome → GenResult
  | .failure msg => ⟨.error ⟨500, failDetail msg⟩, st, true, some p⟩
  | .fragments chunks => finishFromBuffer st job p (accumulateFragments chunks)

/-- POST `/\x7bid\x7d/description`: fetch the posting (404 if absent),
resolve its company (404 if not resolvable), build the prompt from title,
company name, industry and the comma-joined tools, then call the external
API and process the stream. -/
def generate_job_description (st : Store) (id : Nat)
    (request : JobDescriptionRequest) (stream : StreamOutcome) : GenResult :=
  match findJob st id with
  | none => ⟨.error ⟨404, "Job posting not found"⟩, st, false, none⟩
  | some job =>
    match resolveCompany st job with
    | none => ⟨.error ⟨404, "Associated company not found"⟩, st, false, none⟩
    | some company =>
      let tools := String.intercalate ", " request.required_tools
      let p := buildPrompt (pyStr job.title) company.name company.industry tools
      consumeStream st job p stream

/-! ### Concrete scenario data (spec §8) and substring checking -/

/-- Whether the characters `t` occur contiguously inside `s`. -/
def occursInChars (t : List Char) : List Char → Bool
  | [] => t.isEmpty
  | c :: cs => leadsChars t (c :: cs) || occursInChars t cs

/-- Whether `t` occurs as a substring of `s`. -/
def occursIn (t s : String) : Bool :=
  occursInChars t.data s.data

/-- Spec §8 scenario company. -/
def acme : Company := ⟨1, "Acme", "Logistics"⟩

/-- Spec §8 scenario posting (description initially null). -/
def driverJob : JobPosting := ⟨10, some "Driver", none, some 1⟩

/-- Spec §8 scenario store; the next server-assigned id is 11. -/
def demoStore : Store := ⟨[acme], [driverJob], 11⟩

/-- Spec §8 scenario generation request. -/
def demoReq : JobDescriptionRequest := ⟨["forklift", "GPS"]⟩

/-- The prompt the scenario builds. -/
def demoPrompt : String :=
  buildPrompt "Driver" "Acme" "Logistics" "forklift, GPS"

/-- The scenario's fully-accumulated structured-arguments buffer. -/
def demoBuffer : String :=
  "\x7b\"description\": \"Drives and navigates.\"\x7d"

/-- A concrete chunk sequence whose fragments concatenate to `demoBuffer`
(the middle chunk carries no function-call arguments). -/
def demoChunks : List (Option String) :=
  [some "\x7b\"description\": \"Drives", none, some " and navigates.\"\x7d"]

/-- A single chunk whose buffer is a JSON object with no "description"
key. -/
def noKeyChunks : List (Option String) :=
  [some "\x7b\"title\": \"x\"\x7d"]

/-- A five-posting store for the pagination scenario. -/
def fiveStore : Store :=
  ⟨[acme],
   [⟨10, some "a", none, some 1⟩, ⟨11, some "b", none, some 1⟩,
    ⟨12, some "c", none, some 1⟩, ⟨13, some "d", none, some 1⟩,
    ⟨14, some "e", none, some 1⟩], 15⟩

instance [DecidableEq ε] [DecidableEq α] : DecidableEq (Except ε α) :=
  fun a b =>
    match a, b with
    | .error e, .error f =>
      if h : e = f then .isTrue (congrArg Except.error h)
      else .isFalse (fun hh => h (Except.error.inj hh))
    | .ok x, .ok y =>
      if h : x = y then .isTrue (congrArg Except.ok h)
      else .isFalse (fun hh => h (Except.ok.inj hh))
    | .error _, .ok _ => .isFalse (fun hh => Except.noConfusion hh)
    | .ok _, .error _ => .isFalse (fun hh => Except.noConfusion hh)

/-! ### Supporting lemmas -/

/-- Replacing the first `p`-match by the match itself changes nothing. -/
theorem replaceFirst_self {p : α → Bool} {l : List α} {a : α}
    (h : l.find? p = some a) : replaceFirst p a l = l := by
  induction l with
  | nil => simp [List.find?] at h
  | cons x xs ih =>
    by_cases hp : p x
    · rw [List.find?_cons_of_pos _ hp] at h
      cases h
      simp [replaceFirst, hp]
    · rw [List.find?_cons_of_neg _ hp] at h
      simp [replaceFirst, hp, ih h]

/-- The element `find?` returns satisfies the predicate. -/
theorem find?_id_eq {l : List JobPosting} {i : Nat} {a : JobPosting}
    (h : l.find? (fun j => j.id == i) = some a) : a.id = i := by
  have := List.find?_some h
  simpa using this

/-- With pairwise-distinct ids, removing the found row leaves no row with
its id. -/
theorem find?_removeFirst_eq_none {l : List JobPosting} {i : Nat}
    {a : JobPosting} (hu : (l.map (fun j => j.id)).Nodup)
    (h : l.find? (fun j => j.id == i) = some a) :
    (removeFirst (fun j => j.id == i) l).find? (fun j => j.id == i) = none := by
  induction l with
  | nil => simp [List.find?] at h
  | cons x xs ih =>
    simp only [List.map_cons, List.nodup_cons] at hu
    by_cases hp : (x.id == i) = true
    · have hr : removeFirst (fun j => j.id == i) (x :: xs) = xs := by
        simp [removeFirst, hp]
      rw [hr, List.find?_eq_none]
      intro y hy hpy
      have hyid : y.id = i := by simpa using hpy
      have hxid : x.id = i := by simpa using hp
      exact hu.1 (by
        rw [List.mem_map]
        exact ⟨y, hy, by rw [hyid, hxid]⟩)
    · have hr : removeFirst (fun j => j.id == i) (x :: xs) =
          x :: removeFirst (fun j => j.id == i) xs := by
        simp [removeFirst, hp]
      have hh : List.find? (fun j => j.id == i) xs = some a := by
        simpa [List.find?_cons, hp] using h
      rw [hr]
      simpa [List.find?_cons, hp] using ih hu.2 hh

/-- An explicitly-set non-null `company_id` attribute determines the body
field. -/
theorem companyIdAttr_some {upd : JobPostingUpdate} {cid : Nat}
    (h : companyIdAttr upd = some cid) : upd.company_id = some (some cid) := by
  unfold companyIdAttr at h
  cases hu : upd.company_id with
  | none => rw [hu] at h; exact absurd h (by simp)
  | some v =>
    rw [hu] at h
    cases v with
    | none => exact absurd h (by simp)
    | some c =>
      have hc : c = cid := by simpa using h
      rw [hc]

/-! ### Claim theorems -/

/-- C1: in the spec §8 scenario (Acme/Logistics company 1, Driver posting 10,
required tools forklift and GPS), the built prompt contains the job title,
the company name, the company industry and the comma-joined tools; for any
chunk sequence whose fragments concatenate in arrival order to the buffer
`("description": "Drives and navigates.")`, the buffer is parsed as JSON,
the extracted description is persisted onto posting 10, and the response
carries job id 10 with that description. -/
theorem generation_scenario_correct (chunks : List (Option String))
    (h : accumulateFragments chunks = demoBuffer) :
    (occursIn "Driver" demoPrompt = true ∧
     occursIn "Acme" demoPrompt = true ∧
     occursIn "Logistics" demoPrompt = true ∧
     occursIn "forklift, GPS" demoPrompt = true) ∧
    generate_job_description demoStore 10 demoReq (.fragments chunks) =
      ⟨.ok ⟨10, "Drives and navigates."⟩,
       ⟨[acme], [⟨10, some "Driver", some "Drives and navigates.", some 1⟩], 11⟩,
       true, some demoPrompt⟩ := by
  have e : generate_job_description demoStore 10 demoReq (.fragments chunks) =
      finishFromBuffer demoStore driverJob demoPrompt
        (accumulateFragments chunks) := rfl
  rw [e, h]
  exact ⟨⟨by decide, by decide, by decide, by decide⟩, rfl⟩

/-- C1 witness: the scenario evaluated on a concrete three-chunk stream. -/
theorem generation_scenario_correct_witness :
    accumulateFragments demoChunks = demoBuffer ∧
    generate_job_description demoStore 10 demoReq (.fragments demoChunks) =
      ⟨.ok ⟨10, "Drives and navigates."⟩,
       ⟨[acme], [⟨10, some "Driver", some "Drives and navigates.", some 1⟩], 11⟩,
       true, some demoPrompt⟩ :=
  ⟨rfl, (generation_scenario_correct demoChunks rfl).2⟩

/-- C5: a create request whose `company_id` references an existing company
succeeds, appends the new row to the store, and returns a posting whose
fields equal the input fields plus the server-assigned id; that id is fresh
whenever the stored ids are below the counter. -/
theorem create_with_existing_company (st : Store) (inp : JobPostingCreate)
    (c : Company) (hc : findCompany st inp.company_id = some c) :
    create_job_posting st inp =
      (.ok ⟨st.nextId, some inp.title, none, some inp.company_id⟩,
       ⟨st.companies,
        st.jobs ++ [⟨st.nextId, some inp.title, none, some inp.company_id⟩],
        st.nextId + 1⟩) ∧
    ((∀ j ∈ st.jobs, j.id < st.nextId) →
      ∀ j ∈ st.jobs, j.id ≠ st.nextId) := by
  constructor
  · simp [create_job_posting, hc]
  · intro hlt j hj
    exact Nat.ne_of_lt (hlt j hj)

/-- C5 witness: creating a posting for company 1 in the scenario store. -/
theorem create_with_existing_company_witness :
    create_job_posting demoStore ⟨"Pilot", 1⟩ =
      (.ok ⟨11, some "Pilot", none, some 1⟩,
       ⟨[acme], [driverJob, ⟨11, some "Pilot", none, some 1⟩], 12⟩) :=
  (create_with_existing_company demoStore ⟨"Pilot", 1⟩ acme rfl).1

/-- C6: a create request whose `company_id` matches no company fails with a
404 and leaves the store unchanged. -/
theorem create_missing_company (st : Store) (inp : JobPostingCreate)
    (hc : findCompany st inp.company_id = none) :
    create_job_posting st inp = (.error ⟨404, "Company not found"⟩, st) := by
  simp [create_job_posting, hc]

/-- C6 witness: creating a posting for the unknown company 2. -/
theorem create_missing_company_witness :
    create_job_posting demoStore ⟨"Pilot", 2⟩ =
      (.error ⟨404, "Company not found"⟩, demoStore) :=
  create_missing_company demoStore ⟨"Pilot", 2⟩ rfl

/-- C7: a generation request for an unknown job id returns a 404 with the
store unchanged, the external API is never invoked and no prompt is sent. -/
theorem generate_unknown_job_no_call (st : Store) (i : Nat)
    (req : JobDescriptionRequest) (stream : StreamOutcome)
    (h : findJob st i = none) :
    generate_job_description st i req stream =
      ⟨.error ⟨404, "Job posting not found"⟩, st, false, none⟩ := by
  simp [generate_job_description, h]

/-- C7 witness: generation for the absent job id 999. -/
theorem generate_unknown_job_no_call_witness :
    generate_job_description demoStore 999 demoReq (.failure "network error") =
      ⟨.error ⟨404, "Job posting not found"⟩, demoStore, false, none⟩ :=
  generate_unknown_job_no_call demoStore 999 demoReq
    (.failure "network error") rfl

/-- C8: the list operation returns the stored postings in persistence order,
skipping the first `skip` rows and returning at most `limit` rows; on a
five-posting store, skip 0 with limit 100 returns all five in order and
skip 5 returns the empty sequence. -/
theorem list_pagination_window (st : Store) (skip limit : Nat) :
    read_job_postings st skip limit = (st.jobs.drop skip).take limit ∧
    (read_job_postings st skip limit).length ≤ limit ∧
    (st.jobs.length = 5 →
      read_job_postings st 0 100 = st.jobs ∧
      read_job_postings st 5 100 = []) := by
  refine ⟨rfl, List.length_take_le _ _, fun h5 => ⟨?_, ?_⟩⟩
  · show (st.jobs.drop 0).take 100 = st.jobs
    rw [List.drop_zero]
    exact List.take_of_length_le (by omega)
  · show (st.jobs.drop 5).take 100 = []
    rw [← h5, List.drop_length]
    rfl

/-- C8 witness: pagination on a concrete five-posting store. -/
theorem list_pagination_window_witness :
    read_job_postings fiveStore 0 100 = fiveStore.jobs ∧
    read_job_postings fiveStore 5 100 = [] :=
  (list_pagination_window fiveStore 0 100).2.2 rfl

/-- C2: when the job and its company resolve, an exception raised by the
external call or while parsing the accumulated stream surfaces as a single
500 whose detail is the catch-all prefix followed by the underlying error
message, and the store — in particular the posting's description — is
unchanged, the failure occurring before the commit step.  Prompt
construction and persistence are total in the embedding and raise
nothing. -/
theorem generation_failure_propagates (st : Store) (i : Nat)
    (req : JobDescriptionRequest) (job : JobPosting) (c : Company)
    (h1 : findJob st i = some job) (h2 : resolveCompany st job = some c) :
    (∀ msg, generate_job_description st i req (.failure msg) =
      ⟨.error ⟨500, failDetail msg⟩, st, true,
       some (buildPrompt (pyStr job.title) c.name c.industry
         (String.intercalate ", " req.required_tools))⟩) ∧
    (∀ chunks msg,
      parseJson (accumulateFragments chunks) = .error msg →
      generate_job_description st i req (.fragments chunks) =
      ⟨.error ⟨500, failDetail msg⟩, st, true,
       some (buildPrompt (pyStr job.title) c.name c.industry
         (String.intercalate ", " req.required_tools))⟩) := by
  constructor
  · intro msg
    simp [generate_job_description, h1, h2, consumeStream]
  · intro chunks msg h3
    simp [generate_job_description, h1, h2, consumeStream, finishFromBuffer, h3]

/-- C2 witness: a raised network error on the scenario store. -/
theorem generation_failure_propagates_witness :
    generate_job_description demoStore 10 demoReq (.failure "connection reset") =
      ⟨.error ⟨500, failDetail "connection reset"⟩, demoStore, true,
       some demoPrompt⟩ :=
  (generation_failure_propagates demoStore 10 demoReq driverJob acme rfl rfl).1
    "connection reset"

/-- C3 counterexample: in the scenario store, an update whose body
explicitly supplies `company_id` as null completes successfully (no
NotFound) and leaves posting 10 with a null `company_id`, referencing no
company — the claimed invariant fails for explicit-null updates. -/
theorem update_explicit_null_company_cex :
    (update_job_posting demoStore 10 ⟨none, none, some none⟩).1 =
      .ok ⟨10, some "Driver", none, none⟩ ∧
    (findJob (update_job_posting demoStore 10 ⟨none, none, some none⟩).2 10).map
        (fun j => j.company_id) = some none :=
  ⟨rfl, rfl⟩

/-- C3 amended: a successful update that supplied a non-null `company_id`
implies that company exists and the posting now references it (a non-null
`company_id` naming a missing company fails with NotFound); but an update
whose body explicitly supplies `company_id` as null bypasses the existence
check and sets the posting's `company_id` to null. -/
theorem update_company_id_checked (st : Store) (i : Nat)
    (upd : JobPostingUpdate) (job2 : JobPosting) (st2 : Store)
    (hres : update_job_posting st i upd = (.ok job2, st2)) :
    (∀ cid, companyIdAttr upd = some cid →
      (findCompany st cid).isSome = true ∧ job2.company_id = some cid) ∧
    (upd.company_id = some none → job2.company_id = none) := by
  unfold update_job_posting at hres
  cases hj : findJob st i with
  | none =>
    simp only [hj] at hres
    exact absurd hres (by simp)
  | some db_job =>
    simp only [hj] at hres
    cases hca : companyIdAttr upd with
    | none =>
      simp only [hca] at hres
      have hjob : applyUpdate db_job upd = job2 := by
        simpa [commitUpdate] using congrArg Prod.fst hres
      constructor
      · intro cid hcid
        exact absurd hcid (by simp)
      · intro hnull
        rw [← hjob]
        simp [applyUpdate, hnull]
    | some cid0 =>
      simp only [hca] at hres
      cases hfc : findCompany st cid0 with
      | none =>
        simp only [hfc] at hres
        exact absurd hres (by simp)
      | some c =>
        simp only [hfc] at hres
        have hjob : applyUpdate db_job upd = job2 := by
          simpa [commitUpdate] using congrArg Prod.fst hres
        have hset := companyIdAttr_some hca
        constructor
        · intro cid hcid
          have hcc : cid0 = cid := Option.some.inj hcid
          subst hcc
          refine ⟨by rw [hfc]; rfl, ?_⟩
          rw [← hjob]
          simp [applyUpdate, hset]
        · intro hnull
          rw [hnull] at hset
          exact absurd hset (by simp)

/-- C3 amended witness: updating posting 10 to the existing company 1. -/
theorem update_company_id_checked_witness :
    (findCompany demoStore 1).isSome = true ∧
    (driverJob : JobPosting).company_id = some 1 :=
  (update_company_id_checked demoStore 10 ⟨none, none, some (some 1)⟩
    driverJob demoStore rfl).1 1 rfl

/-- C4: a partial update applies exactly the fields present in the body:
each set field takes its supplied value, each unset field keeps its prior
value, the posting's id and the companies table are untouched and only the
targeted row is replaced; the empty body is a no-op and a title-only body
changes only the title. -/
theorem update_applies_exactly_set_fields (st : Store) (i : Nat)
    (job : JobPosting) (h : findJob st i = some job) :
    (∀ upd job2 st2, update_job_posting st i upd = (.ok job2, st2) →
      job2.id = job.id ∧
      job2.title = (match upd.title with | some v => v | none => job.title) ∧
      job2.description =
        (match upd.description with | some v => v | none => job.description) ∧
      job2.company_id =
        (match upd.company_id with | some v => v | none => job.company_id) ∧
      st2.companies = st.companies ∧
      st2.jobs = replaceFirst (fun j => j.id == job.id) job2 st.jobs) ∧
    update_job_posting st i ⟨none, none, none⟩ = (.ok job, st) ∧
    (∀ t, update_job_posting st i ⟨some (some t), none, none⟩ =
      (.ok { job with title := some t },
       { st with
          jobs := replaceFirst (fun j => j.id == job.id)
            ({ job with title := some t }) st.jobs })) := by
  have hid : job.id = i := find?_id_eq h
  refine ⟨?_, ?_, ?_⟩
  · intro upd job2 st2 hres
    unfold update_job_posting at hres
    simp only [h] at hres
    have hcommit : commitUpdate st job upd = (.ok job2, st2) := by
      cases hca : companyIdAttr upd with
      | none => simpa only [hca] using hres
      | some cid =>
        simp only [hca] at hres
        cases hfc : findCompany st cid with
        | none =>
          simp only [hfc] at hres
          exact absurd hres (by simp)
        | some c => simpa only [hfc] using hres
    have hjob : applyUpdate job upd = job2 := by
      simpa [commitUpdate] using congrArg Prod.fst hcommit
    have hst : ({ st with
        jobs := replaceFirst (fun j => j.id == job.id)
          (applyUpdate job upd) st.jobs } : Store) = st2 := by
      simpa [commitUpdate] using congrArg Prod.snd hcommit
    subst hjob
    subst hst
    exact ⟨rfl, rfl, rfl, rfl, rfl, rfl⟩
  · have e : update_job_posting st i ⟨none, none, none⟩ =
        commitUpdate st job ⟨none, none, none⟩ := by
      unfold update_job_posting
      simp only [h]
      rfl
    rw [e]
    simp only [commitUpdate]
    have happ : applyUpdate job ⟨none, none, none⟩ = job := rfl
    rw [happ]
    have hfind : st.jobs.find? (fun j => j.id == job.id) = some job := by
      rw [hid]; exact h
    rw [replaceFirst_self hfind]
  · intro t
    have e : update_job_posting st i ⟨some (some t), none, none⟩ =
        commitUpdate st job ⟨some (some t), none, none⟩ := by
      unfold update_job_posting
      simp only [h]
      rfl
    rw [e]
    rfl

/-- C4 witness: the empty-body no-op on the scenario store. -/
theorem update_applies_exactly_set_fields_witness :
    update_job_posting demoStore 10 ⟨none, none, none⟩ =
      (.ok driverJob, demoStore) :=
  (update_applies_exactly_set_fields demoStore 10 driverJob rfl).2.1

/-- C9: deleting an existing posting succeeds with the confirmation message
and removes its row, so a subsequent get on the same id returns NotFound
(the store's ids being pairwise distinct, as the primary key guarantees). -/
theorem delete_then_get_not_found (st : Store) (i : Nat) (job : JobPosting)
    (hu : (st.jobs.map (fun j => j.id)).Nodup)
    (h : findJob st i = some job) :
    (delete_job_posting st i).1 = .ok "Job posting deleted successfully" ∧
    (read_job_posting (delete_job_posting st i).2 i).1 =
      .error ⟨404, "Job posting not found"⟩ := by
  have hid : job.id = i := find?_id_eq h
  have hdel : delete_job_posting st i =
      (.ok "Job posting deleted successfully",
       { st with jobs := removeFirst (fun j => j.id == job.id) st.jobs }) := by
    unfold delete_job_posting
    rw [h]
  constructor
  · rw [hdel]
  · rw [hdel]
    unfold read_job_posting findJob
    have hnone : ({ st with
        jobs := removeFirst (fun j => j.id == job.id) st.jobs } : Store).jobs.find?
          (fun j => j.id == i) = none := by
      show (removeFirst (fun j => j.id == job.id) st.jobs).find?
          (fun j => j.id == i) = none
      rw [hid]
      exact find?_removeFirst_eq_none hu h
    rw [hnone]

/-- C9 witness: delete posting 10 in the scenario store, then get it. -/
theorem delete_then_get_not_found_witness :
    (delete_job_posting demoStore 10).1 =
      .ok "Job posting deleted successfully" ∧
    (read_job_posting (delete_job_posting demoStore 10).2 10).1 =
      .error ⟨404, "Job posting not found"⟩ :=
  delete_then_get_not_found demoStore 10 driverJob (by decide) rfl

/-- C10: when the fully-accumulated buffer parses as a JSON object that has
no "description" key, the operation succeeds: `.get` defaults to the empty
string, which is persisted as the posting's description, and the response
carries the job id with an empty description. -/
theorem missing_description_key_defaults_empty (st : Store) (i : Nat)
    (req : JobDescriptionRequest) (job : JobPosting) (c : Company)
    (chunks : List (Option String)) (kvs : List (String × Json))
    (h1 : findJob st i = some job) (h2 : resolveCompany st job = some c)
    (h3 : parseJson (accumulateFragments chunks) = .ok (.obj kvs))
    (h4 : lookupLast "description" kvs = none) :
    generate_job_description st i req (.fragments chunks) =
      ⟨.ok ⟨job.id, ""⟩,
       { st with
          jobs := replaceFirst (fun j => j.id == job.id)
            ({ job with description := some "" }) st.jobs },
       true,
       some (buildPrompt (pyStr job.title) c.name c.industry
         (String.intercalate ", " req.required_tools))⟩ := by
  simp [generate_job_description, h1, h2, consumeStream, finishFromBuffer,
    h3, h4]

/-- C10 witness: a buffer that is a JSON object containing only "title". -/
theorem missing_description_key_defaults_empty_witness :
    generate_job_description demoStore 10 demoReq (.fragments noKeyChunks) =
      ⟨.ok ⟨10, ""⟩,
       ⟨[acme], [⟨10, some "Driver", some "", some 1⟩], 11⟩,
       true, some demoPrompt⟩ :=
  missing_description_key_defaults_empty demoStore 10 demoReq driverJob acme
    noKeyChunks [("title", .str "x")] rfl rfl rfl rfl

end JobsApi
